import Mathlib

/-
  Shallow embedding of the device-classification logic of mobile.go
  (package mobile): the pure function resolveDevice from a request's
  headers to a device classification, together with the static keyword
  tables it consults.  String operations mirror the Go ones on the
  character-list view of strings: strings.ToLower is an ASCII lowercase
  map, strings.Contains is contiguous-substring occurrence.
-/

namespace mobile

def Android : String := "android"

def Mobile : String := "mobile"

def Ipad : String := "ipad"

def Iphone : String := "iphone"

def Ipod : String := "ipod"

def Ios : String := "ios"

def Kindle : String := "Kindle"

def Silk : String := "Silk"

def Unknown : String := "Unknown"

def Wap : String := "wap"

def MobileUserAgentPrefixes : List String :=
  ["w3c ", "w3c-", "acs-", "alav", "alca", "amoi", "audi", "avan", "benq",
   "bird", "blac", "blaz", "brew", "cell", "cldc", "cmd-", "dang", "doco",
   "eric", "hipt", "htc_", "inno", "ipaq", "ipod", "jigs", "kddi", "keji",
   "leno", "lg-c", "lg-d", "lg-g", "lge-", "lg/u", "maui", "maxo", "midp",
   "mits", "mmef", "mobi", "mot-", "moto", "mwbp", "nec-", "newt", "noki",
   "palm", "pana", "pant", "phil", "play", "port", "prox", "qwap", "sage",
   "sams", "sany", "sch-", "sec-", "send", "seri", "sgh-", "shar", "sie-",
   "siem", "smal", "smar", "sony", "sph-", "symb", "t-mo", "teli", "tim-",
   "tosh", "tsm-", "upg1", "upsi", "vk-v", "voda", "wap-", "wapa", "wapi",
   "wapp", "wapr", "webc", "winw", "winw", "xda ", "xda-"]

def MobileUserAgentKeywords : List String :=
  ["blackberry", "webos", "ipod", "lge vx", "midp", "maemo", "mmp", "mobile",
   "netfront", "hiptop", "nintendo DS", "novarra", "openweb", "opera mobi",
   "opera mini", "palm", "psp", "phone", "smartphone", "symbian", "up.browser",
   "up.link", "wap", "windows ce"]

def TabletUserAgentKeywords : List String := ["ipad", "playbook", "hp-tablet", "kindle"]

/-- The classification record built by resolveDevice (struct device in
mobile.go); fields not mentioned in a Go composite literal are
zero-valued, which the field defaults reproduce. -/
structure device where
  normal : Bool := false
  mobile : Bool := false
  tablet : Bool := false
  platform : String := ""
deriving DecidableEq, Repr

/-- The four request headers resolveDevice reads through header.Get;
an absent header reads as the empty string, exactly as http.Header.Get
returns "" for a missing key. -/
structure Header where
  userAgent : String
  xWapProfile : String
  profile : String
  accept : String
deriving DecidableEq, Repr

/-- Occurrence of sub as a contiguous substring of the first list,
the semantics of strings.Contains (the empty pattern occurs in
every string). -/
def hasInfix : List Char → List Char → Bool
  | [], sub => sub.isEmpty
  | a :: t, sub => sub.isPrefixOf (a :: t) || hasInfix t sub

/-- strings.Contains s sub. -/
def strContains (s sub : String) : Bool := hasInfix s.data sub.data

/-- strings.ToLower restricted to its ASCII action (all agent keywords
and claims concern ASCII text). -/
def strToLower (s : String) : String := String.mk (s.data.map Char.toLower)

/-- The tablet section of resolveDevice (mobile.go lines 80 to 95):
a switch over the lowercased agent, first match wins, falling back to
the TabletUserAgentKeywords loop; none means fall through. -/
def checkTablet (agent : String) : Option device :=
  if agent ≠ "" then
    if strContains agent Android && !strContains agent Mobile then
      some { tablet := true, platform := Android }
    else if strContains agent Ipad then
      some { tablet := true, platform := Ipad }
    else if strContains agent Silk && !strContains agent Mobile then
      some { tablet := true, platform := Kindle }
    else if TabletUserAgentKeywords.any (fun k => strContains agent k) then
      some { tablet := true, platform := Unknown }
    else none
  else none

/-- The user-agent-profile section (mobile.go lines 98 to 112): if
X-Wap-Profile or Profile is set and the agent is non-empty, the switch
always returns; otherwise fall through. -/
def checkProfile (xWapProfile profile agent : String) : Option device :=
  if xWapProfile ≠ "" ∨ profile ≠ "" then
    if agent ≠ "" then
      if strContains agent Android then
        some { mobile := true, platform := Android }
      else if strContains agent Iphone || strContains agent Ipod || strContains agent Ipad then
        some { mobile := true, platform := Ios }
      else
        some { mobile := true, platform := Unknown }
    else none
  else none

/-- The user-agent four-character slice section (mobile.go lines 115 to
122): guarded by len(agent) >= 4, so the slice agent[:4] is taken only
when it is in bounds. -/
def checkUAPre (agent : String) : Option device :=
  if agent ≠ "" then
    if 4 ≤ agent.data.length then
      if MobileUserAgentPrefixes.any (fun p => strContains (String.mk (agent.data.take 4)) p) then
        some { mobile := true, platform := Unknown }
      else none
    else none
  else none

/-- The Accept-header section (mobile.go lines 125 to 128); note the
raw, not lowercased, Accept value is matched against "wap". -/
def checkAccept (accept : String) : Option device :=
  if accept ≠ "" then
    if strContains accept Wap then
      some { mobile := true, platform := Unknown }
    else none
  else none

/-- The mobile section (mobile.go lines 131 to 144). -/
def checkMobile (agent : String) : Option device :=
  if agent ≠ "" then
    if strContains agent Android then
      some { mobile := true, platform := Android }
    else if strContains agent Iphone || strContains agent Ipod || strContains agent Ipad then
      some { mobile := true, platform := Ios }
    else if MobileUserAgentKeywords.any (fun k => strContains agent k) then
      some { mobile := true, platform := Unknown }
    else none
  else none

/-- resolveDevice (mobile.go lines 76 to 148): the five sections in
order, first one to return wins, otherwise the normal default. -/
def resolveDevice (h : Header) : device :=
  let agent := strToLower h.userAgent
  (checkTablet agent <|>
   checkProfile h.xWapProfile h.profile agent <|>
   checkUAPre agent <|>
   checkAccept h.accept <|>
   checkMobile agent).getD { normal := true, platform := Unknown }

/-- Every classification the tablet section returns is tablet-only. -/
theorem checkTablet_flags {agent : String} {d : device} (h : checkTablet agent = some d) :
    d.normal = false ∧ d.mobile = false ∧ d.tablet = true := by
  unfold checkTablet at h
  repeat' split at h
  all_goals try simp_all
  all_goals (cases h; exact ⟨rfl, rfl, rfl⟩)

/-- Every classification the profile section returns is mobile-only. -/
theorem checkProfile_flags {x p agent : String} {d : device}
    (h : checkProfile x p agent = some d) :
    d.normal = false ∧ d.mobile = true ∧ d.tablet = false := by
  unfold checkProfile at h
  repeat' split at h
  all_goals try simp_all
  all_goals (cases h; exact ⟨rfl, rfl, rfl⟩)

/-- Every classification the slice section returns is mobile-only. -/
theorem checkUAPre_flags {agent : String} {d : device} (h : checkUAPre agent = some d) :
    d.normal = false ∧ d.mobile = true ∧ d.tablet = false := by
  unfold checkUAPre at h
  repeat' split at h
  all_goals try simp_all
  all_goals (cases h; exact ⟨rfl, rfl, rfl⟩)

/-- Every classification the Accept section returns is mobile-only. -/
theorem checkAccept_flags {accept : String} {d : device} (h : checkAccept accept = some d) :
    d.normal = false ∧ d.mobile = true ∧ d.tablet = false := by
  unfold checkAccept at h
  repeat' split at h
  all_goals try simp_all
  all_goals (cases h; exact ⟨rfl, rfl, rfl⟩)

/-- Every classification the mobile section returns is mobile-only. -/
theorem checkMobile_flags {agent : String} {d : device} (h : checkMobile agent = some d) :
    d.normal = false ∧ d.mobile = true ∧ d.tablet = false := by
  unfold checkMobile at h
  repeat' split at h
  all_goals try simp_all
  all_goals (cases h; exact ⟨rfl, rfl, rfl⟩)

/-- C1: for every header set, the classification resolveDevice returns
has exactly one of the three flags normal, mobile, tablet set to true
and the other two false. -/
theorem resolveDevice_exactly_one_flag (h : Header) :
    ((resolveDevice h).normal = true ∧ (resolveDevice h).mobile = false ∧
      (resolveDevice h).tablet = false) ∨
    ((resolveDevice h).normal = false ∧ (resolveDevice h).mobile = true ∧
      (resolveDevice h).tablet = false) ∨
    ((resolveDevice h).normal = false ∧ (resolveDevice h).mobile = false ∧
      (resolveDevice h).tablet = true) := by
  unfold resolveDevice
  cases ht : checkTablet (strToLower h.userAgent) with
  | some d => simpa [ht] using Or.inr (Or.inr (checkTablet_flags ht))
  | none =>
  cases hp : checkProfile h.xWapProfile h.profile (strToLower h.userAgent) with
  | some d => simpa [ht, hp] using Or.inr (Or.inl (checkProfile_flags hp))
  | none =>
  cases hu : checkUAPre (strToLower h.userAgent) with
  | some d => simpa [ht, hp, hu] using Or.inr (Or.inl (checkUAPre_flags hu))
  | none =>
  cases ha : checkAccept h.accept with
  | some d => simpa [ht, hp, hu, ha] using Or.inr (Or.inl (checkAccept_flags ha))
  | none =>
  cases hm : checkMobile (strToLower h.userAgent) with
  | some d => simpa [ht, hp, hu, ha, hm] using Or.inr (Or.inl (checkMobile_flags hm))
  | none => simp [ht, hp, hu, ha, hm]

/-- The ASCII lowercase map never yields the upper-case letter S. -/
theorem toLower_ne_S (c : Char) : Char.toLower c ≠ 'S' := by
  intro hEq
  have h83 : ('S' : Char).toNat = 83 := rfl
  simp only [Char.toLower] at hEq
  split at hEq
  · rename_i hR
    have hv : (Char.toNat c + 32).isValidChar := Or.inl (by omega)
    have ht : (Char.ofNat (Char.toNat c + 32)).toNat = Char.toNat c + 32 := by
      unfold Char.ofNat
      rw [dif_pos hv]
      rfl
    have := congrArg Char.toNat hEq
    rw [ht, h83] at this
    omega
  · rename_i hR
    rw [hEq] at hR
    exact hR (by constructor <;> decide)

/-- A lowercased string can never contain the literal "Silk": its
capital S survives no application of Char.toLower. -/
theorem silk_keyword_unreachable (l : List Char) :
    hasInfix (l.map Char.toLower) Silk.data = false := by
  induction l with
  | nil => decide
  | cons a t ih =>
    simp only [List.map_cons, hasInfix, ih, Bool.or_false]
    have hS : Silk.data = 'S' :: ('i' :: 'l' :: 'k' :: []) := rfl
    rw [hS, List.isPrefixOf_cons₂]
    have hne : ('S' == Char.toLower a) = false := by
      rw [beq_eq_false_iff_ne]
      exact fun hEq => toLower_ne_S a hEq.symm
    rw [hne, Bool.false_and]

/-- C2: the claim that a lowercased agent containing "silk" without
"mobile" yields tablet with platform Kindle is refuted: the Silk branch
compares the lowercased agent against the constant Silk = "Silk"
(capital S), which can never occur in a lowercased string, so the
branch is dead; the claim's own example agent resolves to normal. -/
theorem silk_agent_resolves_normal :
    resolveDevice ⟨"AmazonWebAppPlatform Silk/3.0", "", "", ""⟩ =
      ⟨true, false, false, Unknown⟩ ∧
    ∀ s : String, strContains (strToLower s) Silk = false := by
  refine ⟨by decide, fun s => ?_⟩
  show hasInfix (s.data.map Char.toLower) Silk.data = false
  exact silk_keyword_unreachable s.data

/-- C3: a non-empty lowercased agent containing "android" but not
"mobile" is classified as a tablet with platform Android. -/
theorem android_no_mobile_is_tablet (h : Header)
    (hne : strToLower h.userAgent ≠ "")
    (ha : strContains (strToLower h.userAgent) Android = true)
    (hm : strContains (strToLower h.userAgent) Mobile = false) :
    resolveDevice h = ⟨false, false, true, Android⟩ := by
  have ht : checkTablet (strToLower h.userAgent) = some ⟨false, false, true, Android⟩ := by
    simp [checkTablet, hne, ha, hm]
  simp [resolveDevice, ht]

/-- C3 witness at the spec's own Android-tablet agent. -/
theorem android_no_mobile_is_tablet_w :
    strToLower "Mozilla/5.0 (Linux; Android 10)" ≠ "" ∧
    strContains (strToLower "Mozilla/5.0 (Linux; Android 10)") Android = true ∧
    strContains (strToLower "Mozilla/5.0 (Linux; Android 10)") Mobile = false ∧
    resolveDevice ⟨"Mozilla/5.0 (Linux; Android 10)", "", "", ""⟩ =
      ⟨false, false, true, Android⟩ :=
  ⟨by decide, by decide, by decide,
    android_no_mobile_is_tablet ⟨"Mozilla/5.0 (Linux; Android 10)", "", "", ""⟩
      (by decide) (by decide) (by decide)⟩

/-- C4: a non-empty lowercased agent containing "ipad" is always
classified as a tablet, whether or not "mobile" also occurs: the only
branch that can fire before the iPad branch is the Android tablet
branch, which is also a tablet. -/
theorem ipad_always_tablet (h : Header)
    (hne : strToLower h.userAgent ≠ "")
    (hi : strContains (strToLower h.userAgent) Ipad = true) :
    (resolveDevice h).tablet = true := by
  obtain ⟨d, hd, htab⟩ :
      ∃ d, checkTablet (strToLower h.userAgent) = some d ∧ d.tablet = true := by
    by_cases hb : (strContains (strToLower h.userAgent) Android &&
        !strContains (strToLower h.userAgent) Mobile) = true
    · exact ⟨⟨false, false, true, Android⟩, by simp [checkTablet, hne, hb], rfl⟩
    · exact ⟨⟨false, false, true, Ipad⟩, by simp [checkTablet, hne, hb, hi], rfl⟩
  have hr : resolveDevice h = d := by simp [resolveDevice, hd]
  rw [hr]
  exact htab

/-- C4 witness at an iPad agent that also contains "mobile". -/
theorem ipad_always_tablet_w :
    strToLower "Mozilla/5.0 (iPad; CPU OS 14_0) Mobile/15E148" ≠ "" ∧
    strContains (strToLower "Mozilla/5.0 (iPad; CPU OS 14_0) Mobile/15E148") Ipad = true ∧
    (resolveDevice ⟨"Mozilla/5.0 (iPad; CPU OS 14_0) Mobile/15E148", "", "", ""⟩).tablet = true :=
  ⟨by decide, by decide,
    ipad_always_tablet ⟨"Mozilla/5.0 (iPad; CPU OS 14_0) Mobile/15E148", "", "", ""⟩
      (by decide) (by decide)⟩

/-- C5: when X-Wap-Profile or Profile is non-empty, the lowercased
agent is non-empty and the tablet section fell through, the result is
mobile, with platform Android when the agent contains "android", else
iOS when it contains "iphone", "ipod" or "ipad", else Unknown. -/
theorem profile_header_mobile (h : Header)
    (hp : h.xWapProfile ≠ "" ∨ h.profile ≠ "")
    (hne : strToLower h.userAgent ≠ "")
    (hT : checkTablet (strToLower h.userAgent) = none) :
    resolveDevice h =
      ⟨false, true, false,
        if strContains (strToLower h.userAgent) Android then Android
        else if strContains (strToLower h.userAgent) Iphone ||
            strContains (strToLower h.userAgent) Ipod ||
            strContains (strToLower h.userAgent) Ipad then Ios
        else Unknown⟩ := by
  have hP : checkProfile h.xWapProfile h.profile (strToLower h.userAgent) =
      some ⟨false, true, false,
        if strContains (strToLower h.userAgent) Android then Android
        else if strContains (strToLower h.userAgent) Iphone ||
            strContains (strToLower h.userAgent) Ipod ||
            strContains (strToLower h.userAgent) Ipad then Ios
        else Unknown⟩ := by
    unfold checkProfile
    rw [if_pos hp, if_pos hne]
    split
    · rfl
    · split
      · rfl
      · rfl
  simp [resolveDevice, hT, hP]

/-- C5 witness: an iPhone agent with an X-Wap-Profile header. -/
theorem profile_header_mobile_w :
    ((⟨"SomeiPhoneAgent", "http://wap.samsungmobile.com/uaprof/x.xml", "", ""⟩ : Header).xWapProfile ≠ "" ∨
      (⟨"SomeiPhoneAgent", "http://wap.samsungmobile.com/uaprof/x.xml", "", ""⟩ : Header).profile ≠ "") ∧
    strToLower "SomeiPhoneAgent" ≠ "" ∧
    checkTablet (strToLower "SomeiPhoneAgent") = none ∧
    resolveDevice ⟨"SomeiPhoneAgent", "http://wap.samsungmobile.com/uaprof/x.xml", "", ""⟩ =
      ⟨false, true, false, Ios⟩ :=
  ⟨Or.inl (by decide), by decide, by decide, by
    have := profile_header_mobile
      ⟨"SomeiPhoneAgent", "http://wap.samsungmobile.com/uaprof/x.xml", "", ""⟩
      (Or.inl (by decide)) (by decide) (by decide)
    rw [this]
    decide⟩

/-- C6: a non-empty Accept header containing "wap" yields mobile with
platform Unknown when the tablet, profile and slice sections all fell
through. -/
theorem accept_wap_mobile (h : Header)
    (hacc : h.accept ≠ "")
    (hw : strContains h.accept Wap = true)
    (hT : checkTablet (strToLower h.userAgent) = none)
    (hP : checkProfile h.xWapProfile h.profile (strToLower h.userAgent) = none)
    (hU : checkUAPre (strToLower h.userAgent) = none) :
    resolveDevice h = ⟨false, true, false, Unknown⟩ := by
  have hA : checkAccept h.accept = some ⟨false, true, false, Unknown⟩ := by
    simp [checkAccept, hacc, hw]
  simp [resolveDevice, hT, hP, hU, hA]

/-- C6 witness at the spec's Accept example with a non-matching agent. -/
theorem accept_wap_mobile_w :
    (⟨"CERN-LineMode/2.15", "", "", "application/vnd.wap.wml"⟩ : Header).accept ≠ "" ∧
    strContains "application/vnd.wap.wml" Wap = true ∧
    checkTablet (strToLower "CERN-LineMode/2.15") = none ∧
    checkProfile "" "" (strToLower "CERN-LineMode/2.15") = none ∧
    checkUAPre (strToLower "CERN-LineMode/2.15") = none ∧
    resolveDevice ⟨"CERN-LineMode/2.15", "", "", "application/vnd.wap.wml"⟩ =
      ⟨false, true, false, Unknown⟩ :=
  ⟨by decide, by decide, by decide, by decide, by decide,
    accept_wap_mobile ⟨"CERN-LineMode/2.15", "", "", "application/vnd.wap.wml"⟩
      (by decide) (by decide) (by decide) (by decide) (by decide)⟩

/-- C7: with all four headers empty (absent headers read as the empty
string), the default branch fires: normal with platform Unknown. -/
theorem empty_headers_normal :
    resolveDevice ⟨"", "", "", ""⟩ = ⟨true, false, false, Unknown⟩ := rfl

/-- C8: for an agent shorter than four characters the slice section is
skipped entirely (it returns none without ever taking the slice), and
resolveDevice is the chain of the remaining four sections. -/
theorem short_agent_skips_slice (h : Header)
    (hlen : (strToLower h.userAgent).data.length < 4) :
    checkUAPre (strToLower h.userAgent) = none ∧
    resolveDevice h =
      (checkTablet (strToLower h.userAgent) <|>
       checkProfile h.xWapProfile h.profile (strToLower h.userAgent) <|>
       checkAccept h.accept <|>
       checkMobile (strToLower h.userAgent)).getD
        { normal := true, platform := Unknown } := by
  have hU : checkUAPre (strToLower h.userAgent) = none := by
    unfold checkUAPre
    split
    · rw [if_neg (by omega)]
    · rfl
  refine ⟨hU, ?_⟩
  simp only [resolveDevice, hU, Option.none_orElse]

/-- C8 witness at a three-character agent. -/
theorem short_agent_skips_slice_w :
    (strToLower (⟨"abc", "", "", ""⟩ : Header).userAgent).data.length < 4 ∧
    checkUAPre (strToLower (⟨"abc", "", "", ""⟩ : Header).userAgent) = none ∧
    resolveDevice ⟨"abc", "", "", ""⟩ =
      (checkTablet (strToLower (⟨"abc", "", "", ""⟩ : Header).userAgent) <|>
       checkProfile (⟨"abc", "", "", ""⟩ : Header).xWapProfile
         (⟨"abc", "", "", ""⟩ : Header).profile
         (strToLower (⟨"abc", "", "", ""⟩ : Header).userAgent) <|>
       checkAccept (⟨"abc", "", "", ""⟩ : Header).accept <|>
       checkMobile (strToLower (⟨"abc", "", "", ""⟩ : Header).userAgent)).getD
        { normal := true, platform := Unknown } :=
  ⟨by decide, short_agent_skips_slice ⟨"abc", "", "", ""⟩ (by decide)⟩

/-- C9: resolveDevice is deterministic: two header sets agreeing on all
four read headers classify identically. -/
theorem resolveDevice_deterministic (h1 h2 : Header)
    (e1 : h1.userAgent = h2.userAgent)
    (e2 : h1.xWapProfile = h2.xWapProfile)
    (e3 : h1.profile = h2.profile)
    (e4 : h1.accept = h2.accept) :
    resolveDevice h1 = resolveDevice h2 := by
  cases h1
  cases h2
  cases e1
  cases e2
  cases e3
  cases e4
  rfl

/-- C9 witness at two structurally identical header sets. -/
theorem resolveDevice_deterministic_w :
    resolveDevice ⟨"Mozilla/5.0 (iPhone)", "x", "y", "z"⟩ =
      resolveDevice ⟨"Mozilla/5.0 (iPhone)", "x", "y", "z"⟩ :=
  resolveDevice_deterministic ⟨"Mozilla/5.0 (iPhone)", "x", "y", "z"⟩
    ⟨"Mozilla/5.0 (iPhone)", "x", "y", "z"⟩ rfl rfl rfl rfl

/-- C10: the Accept check matches the raw header value against the
lowercase "wap", so an Accept value containing WAP only in upper or
mixed case (it contains "wap" after lowercasing but not verbatim) is
not caught by the Accept section, and resolveDevice is the chain of
the remaining four sections. -/
theorem accept_check_case_sensitive (h : Header)
    (hmix : strContains (strToLower h.accept) Wap = true)
    (hcs : strContains h.accept Wap = false) :
    checkAccept h.accept = none ∧
    resolveDevice h =
      (checkTablet (strToLower h.userAgent) <|>
       checkProfile h.xWapProfile h.profile (strToLower h.userAgent) <|>
       checkUAPre (strToLower h.userAgent) <|>
       checkMobile (strToLower h.userAgent)).getD
        { normal := true, platform := Unknown } := by
  have hA : checkAccept h.accept = none := by
    unfold checkAccept
    split
    · rw [if_neg]
      simp [hcs]
    · rfl
  refine ⟨hA, ?_⟩
  simp only [resolveDevice, hA, Option.none_orElse]

/-- C10 witness at an Accept value whose WAP is upper case. -/
theorem accept_check_case_sensitive_w :
    strContains (strToLower (⟨"", "", "", "application/vnd.WAP.wml"⟩ : Header).accept) Wap = true ∧
    strContains (⟨"", "", "", "application/vnd.WAP.wml"⟩ : Header).accept Wap = false ∧
    (checkAccept (⟨"", "", "", "application/vnd.WAP.wml"⟩ : Header).accept = none ∧
     resolveDevice ⟨"", "", "", "application/vnd.WAP.wml"⟩ =
       (checkTablet (strToLower (⟨"", "", "", "application/vnd.WAP.wml"⟩ : Header).userAgent) <|>
        checkProfile (⟨"", "", "", "application/vnd.WAP.wml"⟩ : Header).xWapProfile
          (⟨"", "", "", "application/vnd.WAP.wml"⟩ : Header).profile
          (strToLower (⟨"", "", "", "application/vnd.WAP.wml"⟩ : Header).userAgent) <|>
        checkUAPre (strToLower (⟨"", "", "", "application/vnd.WAP.wml"⟩ : Header).userAgent) <|>
        checkMobile (strToLower (⟨"", "", "", "application/vnd.WAP.wml"⟩ : Header).userAgent)).getD
         { normal := true, platform := Unknown }) :=
  ⟨by decide, by decide,
    accept_check_case_sensitive ⟨"", "", "", "application/vnd.WAP.wml"⟩ (by decide) (by decide)⟩

end mobile
